import Mathlib

/-!
Verification development for the gmt-dfr dynamic-function-row daemon.

The Rust sources (src/main.rs, src/niri.rs, src/config.rs) are shallowly
embedded below: pure functions become Lean functions, the stateful event
handlers become explicit state-passing functions, machine integers become
Nat/Int (with explicit truncation where the source casts), f64 arithmetic
is modelled exactly over the rationals, and fallible code returns Option.
External collaborators (serde_json parsing, cairo text measurement, file
reads, the uinput device) enter as parameters of the embedded functions;
everything downstream of these boundaries follows the source line by line.
-/

namespace Dfr

/-! ## JSON values (the shape of serde_json::Value that niri.rs inspects) -/

inductive JsonVal where
  | null
  | bool (b : Bool)
  | num (n : Int)
  | str (s : String)
  | arr (elems : List JsonVal)
  | obj (fields : List (String × JsonVal))

/-- Key lookup in an object field list; first match wins, as in a JSON map
whose keys are unique. -/
def lookupField : List (String × JsonVal) → String → Option JsonVal
  | [], _ => none
  | (k, v) :: rest, key => if k = key then some v else lookupField rest key

/-- serde_json `Value::get`: `Some` only on objects that contain the key. -/
def JsonVal.get (v : JsonVal) (key : String) : Option JsonVal :=
  match v with
  | .obj fields => lookupField fields key
  | _ => none

/-- serde_json square-bracket indexing, which yields `Null` for a missing
key or a non-object. -/
def JsonVal.index (v : JsonVal) (key : String) : JsonVal :=
  (v.get key).getD .null

/-- serde_json `Value::as_u64`: integer numbers in u64 range. -/
def JsonVal.as_u64 : JsonVal → Option Nat
  | .num n => if 0 ≤ n ∧ n < 2 ^ 64 then some n.toNat else none
  | _ => none

/-- serde_json `Value::as_bool`. -/
def JsonVal.as_bool : JsonVal → Option Bool
  | .bool b => some b
  | _ => none

/-- serde_json `Value::as_str`. -/
def JsonVal.as_str : JsonVal → Option String
  | .str s => some s
  | _ => none

/-- serde_json `Value::as_array`. -/
def JsonVal.as_array : JsonVal → Option (List JsonVal)
  | .arr elems => some elems
  | _ => none

/-! Event-key and field-key names used by niri.rs. -/

def kWorkspaceActivated : String := "WorkspaceActivated"

def kWorkspacesChanged : String := "WorkspacesChanged"

def kWindowsChanged : String := "WindowsChanged"

def kWindowFocusChanged : String := "WindowFocusChanged"

def kWindowOpenedOrChanged : String := "WindowOpenedOrChanged"

def kWindowClosed : String := "WindowClosed"

def kId : String := "id"

def kIdx : String := "idx"

def kFocused : String := "focused"

def kIsFocused : String := "is_focused"

def kWorkspaces : String := "workspaces"

def kWindows : String := "windows"

def kWindow : String := "window"

def kTitle : String := "title"

/-! ## niri.rs: Workspace and NiriState -/

/-- niri.rs `struct Workspace { id: u64, idx: u8, is_focused: bool }`. -/
structure Workspace where
  id : Nat
  idx : Nat
  is_focused : Bool
deriving DecidableEq, Repr

/-- The observable fields of niri.rs `NiriState` (the socket handles are
I/O resources outside the embedding; `windows: HashMap<u64, String>` is
modelled as an association list with replace-on-insert semantics). -/
structure NiriState where
  workspaces : List Workspace := []
  focused_window_title : Option String := none
  windows : List (Nat × String) := []
  focused_window_id : Option Nat := none
deriving DecidableEq, Repr

/-- HashMap::insert modelled on the association list: replaces any
existing binding of the key. -/
def mapInsert (m : List (Nat × String)) (k : Nat) (v : String) : List (Nat × String) :=
  (m.filter (fun p => p.1 ≠ k)) ++ [(k, v)]

/-- HashMap::remove. -/
def mapRemove (m : List (Nat × String)) (k : Nat) : List (Nat × String) :=
  m.filter (fun p => p.1 ≠ k)

/-- HashMap::get. -/
def mapGet (m : List (Nat × String)) (k : Nat) : Option String :=
  (m.find? (fun p => p.1 == k)).map (fun p => p.2)

/-- niri.rs `parse_workspace`: requires `id` and `idx` as u64, truncates
`idx` with an `as u8` cast, defaults `is_focused` to false. -/
def parse_workspace (w : JsonVal) : Option Workspace :=
  match (w.index kId).as_u64, (w.index kIdx).as_u64 with
  | some id, some idxv =>
      some { id := id, idx := idxv % 256,
             is_focused := ((w.index kIsFocused).as_bool).getD false }
  | _, _ => none

/-- niri.rs `workspaces_eq`: elementwise comparison of id, idx, is_focused. -/
def workspaces_eq (a b : List Workspace) : Bool :=
  a.length == b.length && (a.zip b).all fun p =>
    p.1.id == p.2.id && p.1.idx == p.2.idx && p.1.is_focused == p.2.is_focused

/-- `new_ws.sort_by_key(|w| w.idx)` — a stable sort by idx. -/
def sort_by_idx (l : List Workspace) : List Workspace :=
  l.mergeSort (fun a b => a.idx ≤ b.idx)

/-- The `WorkspaceActivated` branch of `apply_event_line`
(niri.rs lines 152-163). -/
def applyWorkspaceActivated (s : NiriState) (inner : JsonVal) : NiriState × Bool :=
  match (inner.index kId).as_u64, (inner.index kFocused).as_bool with
  | some id, some focused =>
      let updated := s.workspaces.map fun ws =>
        { ws with is_focused := focused && ws.id == id }
      let changed := (s.workspaces.zip updated).any fun p =>
        p.2.is_focused != p.1.is_focused
      ({ s with workspaces := updated }, changed)
  | _, _ => (s, false)

/-- The `WorkspacesChanged` branch of `apply_event_line`
(niri.rs lines 166-176). -/
def applyWorkspacesChanged (s : NiriState) (inner : JsonVal) : NiriState × Bool :=
  match (inner.index kWorkspaces).as_array with
  | some arr =>
      let new_ws := sort_by_idx (arr.filterMap parse_workspace)
      if workspaces_eq s.workspaces new_ws then (s, false)
      else ({ s with workspaces := new_ws }, true)
  | none => (s, false)

/-- The `WindowsChanged` branch of `apply_event_line`
(niri.rs lines 178-198). -/
def applyWindowsChanged (s : NiriState) (inner : JsonVal) : NiriState × Bool :=
  match (inner.index kWindows).as_array with
  | some arr =>
      let init : NiriState × Option String :=
        ({ s with windows := [], focused_window_id := none }, none)
      let folded := arr.foldl (fun acc w =>
        match (w.index kId).as_u64, (w.index kTitle).as_str with
        | some id, some title =>
            let st := { acc.1 with windows := mapInsert acc.1.windows id title }
            if ((w.index kIsFocused).as_bool).getD false then
              ({ st with focused_window_id := some id }, some title)
            else (st, acc.2)
        | _, _ => acc) init
      if folded.2 != s.focused_window_title then
        ({ folded.1 with focused_window_title := folded.2 }, true)
      else (folded.1, false)
  | none => (s, false)

/-- The `WindowFocusChanged` branch of `apply_event_line`
(niri.rs lines 201-211). -/
def applyWindowFocusChanged (s : NiriState) (inner : JsonVal) : NiriState × Bool :=
  let new_id := (inner.index kId).as_u64
  if new_id == s.focused_window_id then (s, false)
  else
    let s1 := { s with focused_window_id := new_id }
    let new_title := new_id.bind (fun id => mapGet s1.windows id)
    if new_title != s1.focused_window_title then
      ({ s1 with focused_window_title := new_title }, true)
    else (s1, false)

/-- The `WindowOpenedOrChanged` branch of `apply_event_line`
(niri.rs lines 214-228). -/
def applyWindowOpenedOrChanged (s : NiriState) (inner : JsonVal) : NiriState × Bool :=
  match inner.get kWindow with
  | some w =>
      match (w.index kId).as_u64, (w.index kTitle).as_str with
      | some id, some title =>
          let s1 := { s with windows := mapInsert s.windows id title }
          if s1.focused_window_id == some id then
            if (some title : Option String) != s1.focused_window_title then
              ({ s1 with focused_window_title := some title }, true)
            else (s1, false)
          else (s1, false)
      | _, _ => (s, false)
  | none => (s, false)

/-- The `WindowClosed` branch of `apply_event_line`
(niri.rs lines 231-243). -/
def applyWindowClosed (s : NiriState) (inner : JsonVal) : NiriState × Bool :=
  match (inner.index kId).as_u64 with
  | some id =>
      let s1 := { s with windows := mapRemove s.windows id }
      if s1.focused_window_id == some id then
        let s2 := { s1 with focused_window_id := none }
        if s2.focused_window_title.isSome then
          ({ s2 with focused_window_title := none }, true)
        else (s2, false)
      else (s1, false)
  | none => (s, false)

/-- Dispatch on the event kind, in the exact order apply_event_line tests
the keys (niri.rs lines 152-245). -/
def apply_event_parsed (s : NiriState) (event : JsonVal) : NiriState × Bool :=
  match event.get kWorkspaceActivated with
  | some inner => applyWorkspaceActivated s inner
  | none =>
    match event.get kWorkspacesChanged with
    | some inner => applyWorkspacesChanged s inner
    | none =>
      match event.get kWindowsChanged with
      | some inner => applyWindowsChanged s inner
      | none =>
        match event.get kWindowFocusChanged with
        | some inner => applyWindowFocusChanged s inner
        | none =>
          match event.get kWindowOpenedOrChanged with
          | some inner => applyWindowOpenedOrChanged s inner
          | none =>
            match event.get kWindowClosed with
            | some inner => applyWindowClosed s inner
            | none => (s, false)

/-- niri.rs `NiriState::apply_event_line` (lines 144-246). `parsed` is the
result of the external `serde_json::from_str` on `line`: `none` models a
parse error; the function is total, so no line is fatal. Returns the new
state and the "changed" flag. -/
def apply_event_line (s : NiriState) (line : String) (parsed : Option JsonVal) :
    NiriState × Bool :=
  if line = "" then (s, false)
  else
    match parsed with
    | none => (s, false)
    | some v => apply_event_parsed s v

/-! ## main.rs: constants, button model -/

def BUTTON_SPACING_PX : Int := 16

def FN_TAP_THRESHOLD_MS : Nat := 300

inductive BatteryState where
  | NotCharging
  | Charging
  | Low
deriving DecidableEq, Repr

/-- main.rs `ButtonImage`. Icon handles and pre-rendered surfaces are
external resources; `Time` keeps only the derived sub-minute-precision
flag of its compiled format items. -/
inductive ButtonImage where
  | Text (s : String)
  | Svg
  | Bitmap
  | Time (fast : Bool)
  | Battery
  | Volume
  | Brightness
  | Wifi
  | NiriWorkspace (idx : Nat) (focused : Bool)
  | NiriWindowTitle (title : String)
  | Spacer
deriving DecidableEq, Repr

/-- main.rs `struct Button`; key codes as Nat. -/
structure Button where
  image : ButtonImage
  changed : Bool
  active : Bool
  action : List Nat
  clickable : Bool
deriving DecidableEq, Repr

/-- config.rs `ButtonConfig` (plus the volume/brightness/wifi switches
that main.rs reads from it). -/
structure ButtonConfig where
  icon : Option String := none
  text : Option String := none
  theme : Option String := none
  time : Option String := none
  battery : Option String := none
  locale : Option String := none
  action : List Nat := []
  stretch : Option Nat := none
  volume : Option Bool := none
  brightness : Option Bool := none
  wifi : Option Bool := none
  niri_workspaces : Option Bool := none
  niri_window_title : Option Bool := none
deriving DecidableEq, Repr

/-- The external lookups Button::with_config performs: battery-device
discovery under /sys, and whether a compiled time format contains a
second/nanosecond/timestamp token. -/
structure Env where
  batteryDevice : Option String := none
  timeHasSeconds : String → Bool := fun _ => false

def Button.new_spacer : Button :=
  { action := [], active := false, changed := false, clickable := true,
    image := .Spacer }

def Button.new_text (text : String) (action : List Nat) : Button :=
  { action := action, active := false, changed := false, clickable := true,
    image := .Text text }

def Button.new_simple (image : ButtonImage) (action : List Nat) (clickable : Bool) : Button :=
  { action := action, active := false, changed := true, clickable := clickable,
    image := image }

/-- `new_icon` with the icon successfully resolved (failure panics in the
source and aborts construction). -/
def Button.new_icon (action : List Nat) : Button :=
  { action := action, image := .Svg, active := false, changed := false,
    clickable := true }

def Button.new_battery (action : List Nat) : Button :=
  { action := action, active := false, changed := false, clickable := true,
    image := .Battery }

def Button.new_time (action : List Nat) (fast : Bool) : Button :=
  { action := action, active := false, changed := false, clickable := false,
    image := .Time fast }

def Button.new_niri_workspace (idx : Nat) (focused : Bool) : Button :=
  { action := [], active := false, changed := true, clickable := true,
    image := .NiriWorkspace idx focused }

def Button.new_niri_window_title (title : String) : Button :=
  { action := [], active := false, changed := true, clickable := false,
    image := .NiriWindowTitle title }

/-- main.rs `Button::with_config`: content variant resolved in fixed
priority order. -/
def Button.with_config (env : Env) (cfg : ButtonConfig) : Button :=
  match cfg.text with
  | some text => Button.new_text text cfg.action
  | none =>
    match cfg.icon with
    | some _ => Button.new_icon cfg.action
    | none =>
      match cfg.time with
      | some t => Button.new_time cfg.action (env.timeHasSeconds t)
      | none =>
        match cfg.battery with
        | some _ =>
          match env.batteryDevice with
          | some _ => Button.new_battery cfg.action
          | none => Button.new_text "Battery N/A" cfg.action
        | none =>
          if cfg.volume == some true then Button.new_simple .Volume cfg.action false
          else if cfg.brightness == some true then Button.new_simple .Brightness cfg.action false
          else if cfg.wifi == some true then Button.new_simple .Wifi cfg.action false
          else Button.new_spacer

/-- main.rs `Button::needs_faster_refresh`. -/
def Button.needs_faster_refresh (b : Button) : Bool :=
  match b.image with
  | .Time fast => fast
  | _ => false

/-! ## uinput key emission and Button::set_active -/

/-- One uinput `input_event` of the kinds the daemon emits. -/
inductive UEvent where
  | key (code : Nat) (value : Int)
  | syn
deriving DecidableEq, Repr

/-- main.rs `toggle_keys`: nothing at all is emitted when the code list
is empty; otherwise one key event per code and then one sync report. -/
def toggle_keys (codes : List Nat) (value : Int) : List UEvent :=
  if codes.isEmpty then []
  else (codes.map (fun kc => UEvent.key kc value)) ++ [UEvent.syn]

/-- main.rs `Button::set_active`; returns the updated button and the
events written to the uinput device. -/
def Button.set_active (b : Button) (active : Bool) : Button × List UEvent :=
  if ¬b.clickable then (b, [])
  else if b.active != active then
    ({ b with active := active, changed := true },
     toggle_keys b.action (if active then 1 else 0))
  else (b, [])

/-! ## Battery icon bucket selection (Button::render, Battery arm) -/

def plainBatteryIcons : List String :=
  ["battery_0_bar", "battery_1_bar", "battery_2_bar", "battery_3_bar",
   "battery_4_bar", "battery_5_bar", "battery_6_bar", "battery_full"]

def chargingBatteryIcons : List String :=
  ["battery_charging_20", "battery_charging_30", "battery_charging_50",
   "battery_charging_60", "battery_charging_80", "battery_charging_90",
   "battery_charging_full"]

/-- The threshold match in `Button::render` for `ButtonImage::Battery`:
index into the charging icon set when charging, into the plain set
otherwise (Low and NotCharging both take the plain set). -/
def batteryIconIndex (state : BatteryState) (capacity : Nat) : Nat :=
  match state with
  | .Charging =>
      if capacity ≤ 20 then 0
      else if capacity ≤ 30 then 1
      else if capacity ≤ 50 then 2
      else if capacity ≤ 60 then 3
      else if capacity ≤ 80 then 4
      else if capacity ≤ 99 then 5
      else 6
  | _ =>
      if capacity = 0 then 0
      else if capacity ≤ 20 then 1
      else if capacity ≤ 30 then 2
      else if capacity ≤ 50 then 3
      else if capacity ≤ 60 then 4
      else if capacity ≤ 80 then 5
      else if capacity ≤ 99 then 6
      else 7

/-! ## Fn-key tap/hold state machine (real_main, Fn key handling) -/

/-- The session variables the Fn handler in `real_main` mutates.
`fn_press_time` holds the press timestamp (milliseconds on an abstract
monotonic clock standing in for `std::time::Instant`). -/
structure FnState where
  active_layer : Nat
  fn_tap_layer : Nat
  fn_press_time : Option Nat
  needs_complete_redraw : Bool
deriving DecidableEq, Repr

/-- Fn key-down (main.rs lines 1272-1277). -/
def fnKeyPressed (numLayers : Nat) (now : Nat) (s : FnState) : FnState :=
  let s1 := { s with fn_press_time := some now }
  if 1 < numLayers then
    { s1 with active_layer := numLayers - 1, needs_complete_redraw := true }
  else s1

/-- Fn key-up (main.rs lines 1279-1291): tap iff the elapsed time since
the recorded press is strictly below the 300 ms threshold. -/
def fnKeyReleased (numLayers : Nat) (now : Nat) (s : FnState) : FnState :=
  let was_tap :=
    match s.fn_press_time with
    | some t => decide (now - t < FN_TAP_THRESHOLD_MS)
    | none => false
  let s1 := { s with fn_press_time := none }
  if was_tap then
    let tap := (s1.fn_tap_layer + 1) % numLayers
    { s1 with fn_tap_layer := tap, active_layer := tap, needs_complete_redraw := true }
  else
    { s1 with active_layer := s1.fn_tap_layer, needs_complete_redraw := true }

/-! ## FunctionLayer construction (main.rs `FunctionLayer::with_config`) -/

/-- main.rs `struct FunctionLayer`. -/
structure FunctionLayer where
  displays_time : Bool := false
  displays_battery : Bool := false
  displays_live : Bool := false
  buttons : List (Nat × Button) := []
  virtual_button_count : Nat := 0
  faster_refresh : Bool := false
  niri_workspace_ids : List (Nat × Nat) := []
  source_config : List ButtonConfig := []
deriving DecidableEq, Repr

/-- The stretch normalisation `with_config` applies to one entry:
default 1, and values below 1 are raised to 1. -/
def clampStretch (s? : Option Nat) : Nat :=
  let s := s?.getD 1
  if s < 1 then 1 else s

/-- The `scan` in `with_config`: each entry records the running offset
before its (clamped) stretch is consumed; returns the buttons together
with the final running offset. -/
def scanButtons (env : Env) : Nat → List ButtonConfig → List (Nat × Button) × Nat
  | acc, [] => ([], acc)
  | acc, c :: rest =>
      let st := clampStretch c.stretch
      let r := scanButtons env (acc + st) rest
      ((acc, Button.with_config env c) :: r.1, r.2)

/-- main.rs `FunctionLayer::with_config` (lines 743-778); the source
panics on an empty configuration, modelled as `none`. -/
def FunctionLayer.with_config (env : Env) (cfg : List ButtonConfig) : Option FunctionLayer :=
  if cfg.isEmpty then none
  else
    let r := scanButtons env 0 cfg
    some
      { displays_time := cfg.any (fun c => c.time.isSome),
        displays_battery := cfg.any (fun c => c.battery.isSome),
        displays_live := cfg.any (fun c =>
          c.volume == some true || c.brightness == some true || c.wifi == some true),
        buttons := r.1,
        virtual_button_count := r.2,
        faster_refresh := r.1.any (fun p => p.2.needs_faster_refresh),
        niri_workspace_ids := [],
        source_config := [] }

/-! ## rebuild_info_layer (main.rs lines 932-987) -/

def ButtonImage.isTime : ButtonImage → Bool
  | .Time _ => true
  | _ => false

def ButtonImage.isLive : ButtonImage → Bool
  | .Volume => true
  | .Brightness => true
  | .Wifi => true
  | _ => false

/-- The mutable locals of `rebuild_info_layer` while it walks the stored
source config. -/
structure RebuildAcc where
  buttons : List (Nat × Button) := []
  ids : List (Nat × Nat) := []
  virt : Nat := 0
  total : Nat := 0
  displays_time : Bool := false
  faster_refresh : Bool := false
  displays_live : Bool := false
deriving Repr

/-- The inner loop over `niri_state.workspaces` for a NiriWorkspaces
config entry: one button of virtual width 1 per workspace. -/
def rebuildWorkspaceButtons (acc : RebuildAcc) (ws : List Workspace) : RebuildAcc :=
  ws.foldl
    (fun a w =>
      { a with
        ids := a.ids ++ [(a.buttons.length, w.idx)],
        buttons := a.buttons ++ [(a.virt, Button.new_niri_workspace w.idx w.is_focused)],
        virt := a.virt + 1,
        total := a.total + 1 })
    acc

/-- One iteration of the `for cfg in &info_cfg` loop. Note: the stretch
here is `cfg.stretch.unwrap_or(1)` with no clamping, unlike
`with_config`. -/
def rebuildStep (env : Env) (niri : NiriState) (acc : RebuildAcc) (cfg : ButtonConfig) :
    RebuildAcc :=
  let stretch := cfg.stretch.getD 1
  if cfg.niri_workspaces == some true then
    rebuildWorkspaceButtons acc niri.workspaces
  else if cfg.niri_window_title == some true then
    let title := niri.focused_window_title.getD ""
    { acc with
      buttons := acc.buttons ++ [(acc.virt, Button.new_niri_window_title title)],
      virt := acc.virt + stretch,
      total := acc.total + stretch }
  else
    let btn := Button.with_config env cfg
    let acc1 :=
      if btn.image.isTime then
        { acc with displays_time := true, faster_refresh := btn.needs_faster_refresh }
      else acc
    let acc2 :=
      if btn.image.isLive then { acc1 with displays_live := true } else acc1
    { acc2 with
      buttons := acc2.buttons ++ [(acc2.virt, btn)],
      virt := acc2.virt + stretch,
      total := acc2.total + stretch }

/-- main.rs `rebuild_info_layer`, applied to the info layer itself (its
stored `source_config` is re-expanded against the current niri state). -/
def rebuild_info_layer (env : Env) (niri : NiriState) (layer : FunctionLayer) :
    FunctionLayer :=
  let acc := layer.source_config.foldl (rebuildStep env niri) {}
  { layer with
    buttons := acc.buttons,
    virtual_button_count := max acc.total acc.virt,
    niri_workspace_ids := acc.ids,
    displays_time := acc.displays_time,
    faster_refresh := acc.faster_refresh,
    displays_live := acc.displays_live }

/-- The per-entry virtual widths `rebuild_info_layer` consumes, in
order: a NiriWorkspaces entry expands to one unit per current workspace,
every other entry consumes its declared stretch defaulted to 1
(unclamped). -/
def rebuildStretches (niri : NiriState) (cfg : List ButtonConfig) : List Nat :=
  cfg.flatMap fun c =>
    if c.niri_workspaces == some true then List.replicate niri.workspaces.length 1
    else [c.stretch.getD 1]

/-- Running offsets of a stretch list: entry i is `acc` plus the sum of
the stretches before it. -/
def prefixSums (acc : Nat) : List Nat → List Nat
  | [] => []
  | s :: rest => acc :: prefixSums (acc + s) rest

/-! ## Touch hit test (main.rs `FunctionLayer::hit`, lines 887-929)

f64 arithmetic is modelled exactly over ℚ; the `as usize` cast of a
non-negative float is `Int.toNat ∘ floor` (Rust float-to-int casts
saturate, which `Int.toNat` reproduces on the negative side). -/

/-- `virtual_button_width` as `hit` computes it (no pixel shift). -/
def hitVbw (l : FunctionLayer) (width : Nat) : ℚ :=
  ((width : ℚ) - 16 * ((l.virtual_button_count - 1 : Nat) : ℚ)) /
    (l.virtual_button_count : ℚ)

/-- The struck virtual column `(x / (width / virtual_button_count)) as
usize`. -/
def virtualColumn (l : FunctionLayer) (width : Nat) (x : ℚ) : Nat :=
  (⌊x / ((width : ℚ) / (l.virtual_button_count : ℚ))⌋).toNat

/-- `position(|(start, _)| *start > v).unwrap_or(len) - 1`: the index of
the last button whose start offset is at most `v`. The `- 1` is usize
subtraction (the source would panic if the first button had a positive
start offset; constructed layers always start at 0). -/
def lastStartLE (btns : List (Nat × Button)) (v : Nat) : Nat :=
  (match btns.findIdx? (fun p => decide (v < p.1)) with
   | some j => j
   | none => btns.length) - 1

/-- The button-index resolution step of `hit`: a pinned index is used
as is, otherwise the struck column decides. -/
def hitResolve (l : FunctionLayer) (width : Nat) (x : ℚ) (i? : Option Nat) : Nat :=
  match i? with
  | some i => i
  | none => lastStartLE l.buttons (virtualColumn l width x)

/-- `end` for button i: the next button's start offset, or
`virtual_button_count` for the last button. -/
def buttonEnd (l : FunctionLayer) (i : Nat) : Nat :=
  match l.buttons.get? (i + 1) with
  | some p => p.1
  | none => l.virtual_button_count

/-- The resolved button's left edge
`(start * (virtual_button_width + spacing)).floor()`. -/
def hitLeftEdge (l : FunctionLayer) (width : Nat) (start : Nat) : ℚ :=
  ((⌊(start : ℚ) * (hitVbw l width + 16)⌋ : ℤ) : ℚ)

/-- The resolved button's width
`vbw + ((end - start - 1) * (vbw + spacing)).floor()`. -/
def hitButtonWidth (l : FunctionLayer) (width : Nat) (start e : Nat) : ℚ :=
  hitVbw l width + ((⌊((e - start - 1 : Nat) : ℚ) * (hitVbw l width + 16)⌋ : ℤ) : ℚ)

/-- main.rs `FunctionLayer::hit`. -/
def FunctionLayer.hit (l : FunctionLayer) (width height : Nat) (x y : ℚ)
    (i? : Option Nat) : Option Nat :=
  match l.buttons.get? (hitResolve l width x i?) with
  | none => none
  | some p =>
      if ¬p.2.clickable then none
      else if x < hitLeftEdge l width p.1 ∨
          x > hitLeftEdge l width p.1 +
            hitButtonWidth l width p.1 (buttonEnd l (hitResolve l width x i?)) ∨
          y < (1 / 10) * (height : ℚ) ∨ y > (9 / 10) * (height : ℚ) then none
      else some (hitResolve l width x i?)

/-! ## Renderer (main.rs `FunctionLayer::draw`, lines 780-885)

The cairo painting calls are external effects; the embedding returns,
per button, the updated button (with its `changed` flag cleared when it
was repainted), a Boolean marker recording whether `render` was invoked
for it, and the dirty rectangle pushed for it in incremental mode. -/

/-- drm `ClipRect::new(x1, y1, x2, y2)` in the unrotated physical frame
(the x axis spans the panel height). -/
structure ClipRect where
  x1 : Nat
  y1 : Nat
  x2 : Nat
  y2 : Nat
deriving DecidableEq, Repr

/-- Rust `as u16` on an f64: saturating conversion (truncation toward
zero; negative values clamp to 0, large values to 65535). -/
def f64ToU16 (q : ℚ) : Nat := min (⌊q⌋.toNat) 65535

/-- The configuration switches `draw` reads. -/
structure DrawCfg where
  enable_pixel_shift : Bool := false
  show_button_outlines : Bool := false
deriving DecidableEq, Repr

/-- The button's left edge as `draw` computes it (with pixel shift). -/
def drawLeftEdge (vbw : ℚ) (psw : Nat) (shiftX : ℚ) (start : Nat) : ℚ :=
  ((⌊(start : ℚ) * (vbw + 16)⌋ : ℤ) : ℚ) + shiftX + ((psw / 2 : Nat) : ℚ)

/-- The button's width as `draw` computes it. -/
def drawButtonWidth (vbw : ℚ) (start e : Nat) : ℚ :=
  vbw + ((⌊((e - start - 1 : Nat) : ℚ) * (vbw + 16)⌋ : ℤ) : ℚ)

/-- The dirty rectangle `draw` pushes for a repainted button in
incremental mode: rows from `height - top - radius` to
`height - bot + radius` with `bot = 0.15 * height`,
`top = 0.85 * height` and `radius = 8`, columns spanning the button. -/
def drawRect (vbw : ℚ) (psw : Nat) (shiftX : ℚ) (height : Nat) (e : Nat)
    (p : Nat × Button) : ClipRect :=
  { x1 := height - f64ToU16 ((height : ℚ) * (17 / 20)) - 8,
    y1 := f64ToU16 (drawLeftEdge vbw psw shiftX p.1),
    x2 := height - f64ToU16 ((height : ℚ) * (3 / 20)) + 8,
    y2 := f64ToU16 (drawLeftEdge vbw psw shiftX p.1) +
      f64ToU16 (drawButtonWidth vbw p.1 e) }

/-- The body of the `for i in 0..self.buttons.len()` loop of `draw` for
one button, given its `end` offset `e`. -/
def drawButton (complete : Bool) (vbw : ℚ) (psw : Nat) (shiftX : ℚ) (height : Nat)
    (e : Nat) (p : Nat × Button) : (Nat × Button) × Bool × Option ClipRect :=
  if ¬p.2.changed ∧ ¬complete then (p, false, none)
  else
    ((p.1, { p.2 with changed := false }), true,
     if complete then none else some (drawRect vbw psw shiftX height e p))

/-- The loop of `draw`, pairing each button with the next start offset. -/
def drawLoop (complete : Bool) (vbw : ℚ) (psw : Nat) (shiftX : ℚ) (height count : Nat) :
    List (Nat × Button) → List ((Nat × Button) × Bool × Option ClipRect)
  | [] => []
  | p :: rest =>
      let e := match rest with
        | q :: _ => q.1
        | [] => count
      drawButton complete vbw psw shiftX height e p :: drawLoop complete vbw psw shiftX height count rest

/-- main.rs `FunctionLayer::draw`. `pixelShiftWidthPx` is the
`PIXEL_SHIFT_WIDTH_PX` constant of the (external) pixel_shift module.
Returns the layer with updated `changed` flags, the repaint marker per
button, and the dirty rectangle list handed to the display. -/
def FunctionLayer.draw (l : FunctionLayer) (cfg : DrawCfg) (pixelShiftWidthPx : Nat)
    (width height : Nat) (shift : ℚ × ℚ) (complete : Bool) :
    FunctionLayer × List Bool × List ClipRect :=
  let psw := if cfg.enable_pixel_shift then pixelShiftWidthPx else 0
  let vbw : ℚ :=
    (((width : Int) - (psw : Int) - 16 * ((l.virtual_button_count - 1 : Nat) : Int) : Int) : ℚ) /
      (l.virtual_button_count : ℚ)
  let results := drawLoop complete vbw psw shift.1 height l.virtual_button_count l.buttons
  let initRegions := if complete then [ClipRect.mk 0 0 height width] else []
  ({ l with buttons := results.map (fun r => r.1) },
   results.map (fun r => r.2.1),
   initRegions ++ results.filterMap (fun r => r.2.2))

/-! ## Window-title truncation (Button::render, NiriWindowTitle arm)

cairo text measurement is external: `w k` is the measured width of the
first `k` characters of the title, `ew` the measured ellipsis width,
`maxw` the available width (`button_width - 16`). -/

/-- The binary search over character counts (main.rs lines 566-579):
while `lo + 1 < hi`, probe the midpoint prefix and keep the invariant
that `lo` fits and `hi` does not. -/
def truncBSearch (w : Nat → ℚ) (ew maxw : ℚ) (lo hi : Nat) : Nat :=
  if lo + 1 < hi then
    let mid := (lo + hi) / 2
    if w mid + ew ≤ maxw then truncBSearch w ew maxw mid hi
    else truncBSearch w ew maxw lo mid
  else lo
termination_by hi - lo
decreasing_by
  · omega
  · omega

/-- The NiriWindowTitle rendering decision: the title verbatim when it
fits, otherwise the binary-searched prefix plus an ellipsis. -/
def renderWindowTitle (w : Nat → ℚ) (ew : ℚ) (title : String) (maxw : ℚ) : String :=
  if w title.length ≤ maxw then title
  else
    let lo := truncBSearch w ew maxw 0 title.length
    (title.take lo) ++ "…"

/-! ## Concrete instances used by witnesses and counterexamples -/

/-- A clickable button with an empty action list, as produced for niri
workspace buttons and spacers. -/
def emptyActionBtn : Button :=
  { image := .Spacer, changed := false, active := false, action := [],
    clickable := true }

/-- A JSON event whose kind niri.rs does not recognize. -/
def unknownEventVal : JsonVal := .obj [("SomethingElse", .null)]

/-- The workspace object with id 1, idx 0, focused. -/
def wsObj1 : JsonVal := .obj [(kId, .num 1), (kIdx, .num 0), (kIsFocused, .bool true)]

/-- The workspace object with id 2, idx 1, not focused. -/
def wsObj2 : JsonVal := .obj [(kId, .num 2), (kIdx, .num 1), (kIsFocused, .bool false)]

/-- The spec's example WorkspacesChanged snapshot event. -/
def wsSnapshotVal : JsonVal :=
  .obj [(kWorkspacesChanged, .obj [(kWorkspaces, .arr [wsObj1, wsObj2])])]

/-- A WorkspaceActivated event focusing workspace id 1. -/
def wsActVal : JsonVal :=
  .obj [(kWorkspaceActivated, .obj [(kId, .num 1), (kFocused, .bool true)])]

/-- A state with two workspaces, the second focused. -/
def twoWsState : NiriState :=
  { workspaces := [⟨1, 0, false⟩, ⟨2, 1, true⟩] }

/-- An info-layer configuration whose first entry declares stretch 0 —
legal in the TOML, clamped by `with_config` but not by
`rebuild_info_layer`. -/
def zeroStretchCfg : List ButtonConfig :=
  [{ text := some "a", stretch := some 0 }, { text := some "b" }]

/-- An info layer whose stored source config contains the 0-stretch
entry. -/
def zeroStretchLayer : FunctionLayer := { source_config := zeroStretchCfg }

/-- A small primary-layer configuration exercising the stretch default
and the clamping: declared stretches (0, default, 2) become (1, 1, 2). -/
def threeBtnCfg : List ButtonConfig :=
  [{ text := some "esc", stretch := some 0 },
   { text := some "F1" },
   { text := some "F2", stretch := some 2 }]

/-- An info-layer source config: workspaces, window title (stretch 6),
clock (stretch 4). -/
def infoCfg : List ButtonConfig :=
  [{ niri_workspaces := some true },
   { niri_window_title := some true, stretch := some 6 },
   { time := some "%H:%M", stretch := some 4 }]

/-- The info layer holding `infoCfg` as its rebuild template. -/
def infoLayer : FunctionLayer := { source_config := infoCfg }

/-- The layer `with_config` builds from `threeBtnCfg`. -/
def threeBtnLayer : FunctionLayer :=
  (FunctionLayer.with_config {} threeBtnCfg).getD {}

/-- A two-button layer (starts 0 and 1, stretches 1 and 33, both
clickable) on which the hit test's column resolution disagrees with the
rendered span geometry. -/
def hitCxLayer : FunctionLayer :=
  { buttons := [(0, Button.new_text "a" []), (1, Button.new_text "b" [])],
    virtual_button_count := 34 }

/-- A button marked dirty. -/
def dirtyBtn : Button :=
  { image := .Text "x", changed := true, active := false, action := [],
    clickable := true }

/-- A button not marked dirty. -/
def cleanBtn : Button :=
  { image := .Text "y", changed := false, active := false, action := [],
    clickable := true }

/-- A single-button layer whose button is dirty. -/
def drawCxLayer : FunctionLayer :=
  { buttons := [(0, dirtyBtn)], virtual_button_count := 1 }

/-- A two-button layer, first clean, second dirty. -/
def drawWLayer : FunctionLayer :=
  { buttons := [(0, cleanBtn), (1, dirtyBtn)], virtual_button_count := 2 }

/-! # Theorems -/

/-- C1: on Fn key release with a recorded press, an elapsed time
strictly below 300 ms advances the tap-cycle index by one modulo the
layer count and makes it the active layer; an elapsed time of 300 ms or
more restores the active layer to the unchanged tap-cycle index; both
paths request a full redraw. -/
theorem fn_release_tap_advances_hold_restores (numLayers now t : Nat) (s : FnState)
    (hp : s.fn_press_time = some t) (hn : 0 < numLayers) :
    (now - t < 300 →
      (fnKeyReleased numLayers now s).fn_tap_layer = (s.fn_tap_layer + 1) % numLayers ∧
      (fnKeyReleased numLayers now s).active_layer = (s.fn_tap_layer + 1) % numLayers) ∧
    (300 ≤ now - t →
      (fnKeyReleased numLayers now s).active_layer = s.fn_tap_layer ∧
      (fnKeyReleased numLayers now s).fn_tap_layer = s.fn_tap_layer) ∧
    (fnKeyReleased numLayers now s).needs_complete_redraw = true := by
  have _ := hn
  by_cases h : now - t < 300 <;>
    simp [fnKeyReleased, hp, FN_TAP_THRESHOLD_MS, h]

/-- Witness for C1: a 100 ms tap with three layers advances the cycle
from 0 to 1; a 500 ms hold leaves it at 0. -/
theorem fn_release_witness :
    ((fnKeyReleased 3 100 ⟨2, 0, some 0, false⟩).fn_tap_layer = (0 + 1) % 3 ∧
      (fnKeyReleased 3 100 ⟨2, 0, some 0, false⟩).active_layer = (0 + 1) % 3) ∧
    ((fnKeyReleased 3 500 ⟨2, 0, some 0, false⟩).active_layer = 0 ∧
      (fnKeyReleased 3 500 ⟨2, 0, some 0, false⟩).fn_tap_layer = 0) :=
  ⟨(fn_release_tap_advances_hold_restores 3 100 0 ⟨2, 0, some 0, false⟩ rfl
      (by decide)).1 (by decide),
   (fn_release_tap_advances_hold_restores 3 500 0 ⟨2, 0, some 0, false⟩ rfl
      (by decide)).2.1 (by decide)⟩

/-- C6: the battery icon threshold table. The plain set has 8 icons and
the charging set 7; in a non-charging state capacity 0 selects plain
index 0, 1-20 index 1, 21-30 index 2, 31-50 index 3, 51-60 index 4,
61-80 index 5, 81-99 index 6 and 100 index 7; while charging capacity
0-20 selects charging index 0, 21-30 index 1, 31-50 index 2, 51-60
index 3, 61-80 index 4, 81-99 index 5 and 100 index 6. -/
theorem battery_bucket_table (c : Nat) :
    plainBatteryIcons.length = 8 ∧ chargingBatteryIcons.length = 7 ∧
    ((c = 0 → batteryIconIndex .NotCharging c = 0 ∧ batteryIconIndex .Low c = 0) ∧
     (1 ≤ c → c ≤ 20 → batteryIconIndex .NotCharging c = 1 ∧ batteryIconIndex .Low c = 1) ∧
     (21 ≤ c → c ≤ 30 → batteryIconIndex .NotCharging c = 2 ∧ batteryIconIndex .Low c = 2) ∧
     (31 ≤ c → c ≤ 50 → batteryIconIndex .NotCharging c = 3 ∧ batteryIconIndex .Low c = 3) ∧
     (51 ≤ c → c ≤ 60 → batteryIconIndex .NotCharging c = 4 ∧ batteryIconIndex .Low c = 4) ∧
     (61 ≤ c → c ≤ 80 → batteryIconIndex .NotCharging c = 5 ∧ batteryIconIndex .Low c = 5) ∧
     (81 ≤ c → c ≤ 99 → batteryIconIndex .NotCharging c = 6 ∧ batteryIconIndex .Low c = 6) ∧
     (c = 100 → batteryIconIndex .NotCharging c = 7 ∧ batteryIconIndex .Low c = 7)) ∧
    ((c ≤ 20 → batteryIconIndex .Charging c = 0) ∧
     (21 ≤ c → c ≤ 30 → batteryIconIndex .Charging c = 1) ∧
     (31 ≤ c → c ≤ 50 → batteryIconIndex .Charging c = 2) ∧
     (51 ≤ c → c ≤ 60 → batteryIconIndex .Charging c = 3) ∧
     (61 ≤ c → c ≤ 80 → batteryIconIndex .Charging c = 4) ∧
     (81 ≤ c → c ≤ 99 → batteryIconIndex .Charging c = 5) ∧
     (c = 100 → batteryIconIndex .Charging c = 6)) := by
  refine ⟨rfl, rfl, ?_, ?_⟩ <;>
    repeat' apply And.intro <;>
      (intros; simp only [batteryIconIndex]; split_ifs <;> omega)

/-- Witness for C6: the spot checks from the spec — capacity 20 not
charging selects index 1, capacity 21 index 2, capacity 100 while
charging the final index 6. -/
theorem battery_bucket_witness :
    batteryIconIndex .NotCharging 20 = 1 ∧ batteryIconIndex .NotCharging 21 = 2 ∧
    batteryIconIndex .Charging 100 = 6 :=
  ⟨((battery_bucket_table 20).2.2.1.2.1 (by decide) (by decide)).1,
   ((battery_bucket_table 21).2.2.1.2.2.1 (by decide) (by decide)).1,
   (battery_bucket_table 100).2.2.2.2.2.2.2.2.2 rfl⟩

/-- C9 counterexample: a clickable button with an empty action list
(spacer / niri workspace buttons) does flip its state on `set_active`,
yet emits no events at all — in particular no synchronization event —
contradicting the claim that a state change always emits the action's
key events followed by one synchronization event. -/
theorem set_active_empty_action_counterexample :
    (emptyActionBtn.set_active true).1.active = true ∧
    (emptyActionBtn.set_active true).1.changed = true ∧
    (emptyActionBtn.set_active true).2 = [] ∧
    (emptyActionBtn.set_active true).2 ≠
      emptyActionBtn.action.map (fun kc => UEvent.key kc 1) ++ [UEvent.syn] := by
  decide

/-- C9 (amended): `set_active` is a no-op (no field change, no events)
when the button is not clickable or the requested state equals the
current one; when it applies it flips `active`, sets `changed`, and —
when the action list is non-empty — emits one key event per action key
code followed by one synchronization event (an empty action list emits
nothing); calling it twice with the same value emits events at most
once. -/
theorem set_active_behavior (b : Button) (a : Bool) :
    (¬b.clickable → b.set_active a = (b, [])) ∧
    (b.active = a → b.set_active a = (b, [])) ∧
    (b.clickable → b.active ≠ a →
      (b.set_active a).1 = { b with active := a, changed := true } ∧
      (b.set_active a).2 =
        (if b.action.isEmpty then []
         else b.action.map (fun kc => UEvent.key kc (if a then 1 else 0)) ++
           [UEvent.syn])) ∧
    ((b.set_active a).1.set_active a).2 = [] := by
  by_cases hc : b.clickable <;> by_cases ha : b.active = a <;>
    simp [Button.set_active, toggle_keys, hc, ha]

/-- Witness for C9 (amended): a clickable one-key button flips and
emits its key press followed by a sync event. -/
theorem set_active_behavior_witness :
    (Button.set_active
        { image := .Text "F1", changed := false, active := false, action := [59],
          clickable := true } true).1 =
      { image := .Text "F1", changed := true, active := true, action := [59],
        clickable := true } ∧
    (Button.set_active
        { image := .Text "F1", changed := false, active := false, action := [59],
          clickable := true } true).2 =
      (if ([59] : List Nat).isEmpty then []
       else ([59] : List Nat).map (fun kc => UEvent.key kc 1) ++ [UEvent.syn]) :=
  (set_active_behavior
    { image := .Text "F1", changed := false, active := false, action := [59],
      clickable := true } true).2.2.1 (by decide) (by decide)

/-- C8: an empty line, an unparsable line, or a parsed JSON value with
no recognized event key leaves the compositor state (workspace list,
window map, focused id and title) unchanged and reports changed =
false; `apply_event_line` is total, so no such line is fatal. -/
theorem ignored_lines_leave_state (s : NiriState) (line : String)
    (parsed : Option JsonVal)
    (h : line = "" ∨ parsed = none ∨
      ∃ v, parsed = some v ∧
        v.get kWorkspaceActivated = none ∧ v.get kWorkspacesChanged = none ∧
        v.get kWindowsChanged = none ∧ v.get kWindowFocusChanged = none ∧
        v.get kWindowOpenedOrChanged = none ∧ v.get kWindowClosed = none) :
    apply_event_line s line parsed = (s, false) := by
  rcases h with rfl | rfl | ⟨v, rfl, h1, h2, h3, h4, h5, h6⟩
  · simp [apply_event_line]
  · simp [apply_event_line]
  · by_cases hl : line = "" <;>
      simp [apply_event_line, apply_event_parsed, hl, h1, h2, h3, h4, h5, h6]

/-- Witness for C8: a line carrying an unrecognized event object is
ignored on the default state. -/
theorem ignored_lines_witness :
    apply_event_line {} "x" (some unknownEventVal) = ({}, false) :=
  ignored_lines_leave_state {} "x" (some unknownEventVal)
    (Or.inr (Or.inr ⟨unknownEventVal, rfl, by simp [unknownEventVal, JsonVal.get,
      lookupField, kWorkspaceActivated, kWorkspacesChanged, kWindowsChanged,
      kWindowFocusChanged, kWindowOpenedOrChanged, kWindowClosed]⟩))

/-! Helper lemmas on workspaces_eq and list folds. -/

theorem zip_self_all_fields (a : List Workspace) :
    ((a.zip a).all fun p =>
      p.1.id == p.2.id && p.1.idx == p.2.idx && p.1.is_focused == p.2.is_focused) = true := by
  induction a with
  | nil => rfl
  | cons x xs ih => simp [ih]

theorem workspaces_eq_refl (a : List Workspace) : workspaces_eq a a = true := by
  simp [workspaces_eq, zip_self_all_fields a]

theorem workspaces_eq_eq {a b : List Workspace} (h : workspaces_eq a b = true) :
    a = b := by
  induction a generalizing b with
  | nil =>
    cases b with
    | nil => rfl
    | cons y ys => simp [workspaces_eq] at h
  | cons x xs ih =>
    cases b with
    | nil => simp [workspaces_eq] at h
    | cons y ys =>
      obtain ⟨xid, xidx, xf⟩ := x
      obtain ⟨yid, yidx, yf⟩ := y
      simp only [workspaces_eq, List.zip_cons_cons, List.all_cons, List.length_cons,
        Bool.and_eq_true, beq_iff_eq, Nat.add_right_cancel_iff] at h
      obtain ⟨hl, ⟨⟨h1, h2⟩, h3⟩, hall⟩ := h
      subst h1
      subst h2
      subst h3
      have hrest : xs = ys := by
        apply ih
        simp only [workspaces_eq, Bool.and_eq_true, beq_iff_eq]
        exact ⟨hl, hall⟩
      rw [hrest]

theorem zip_map_any (l : List Workspace) (f : Workspace → Workspace)
    (g : Workspace × Workspace → Bool) :
    ((l.zip (l.map f)).any fun p => g (p.1, p.2)) = l.any fun x => g (x, f x) := by
  induction l with
  | nil => rfl
  | cons x xs ih => simp [ih]

theorem countP_id_le_one (id : Nat) (l : List Workspace)
    (h : (l.map Workspace.id).Nodup) :
    l.countP (fun w => w.id == id) ≤ 1 := by
  induction l with
  | nil => simp
  | cons w t ih =>
    simp only [List.map_cons, List.nodup_cons, List.mem_map] at h
    obtain ⟨hnot, hnd⟩ := h
    by_cases hw : w.id = id
    · have hzero : t.countP (fun x => x.id == id) = 0 := by
        rw [List.countP_eq_zero]
        intro x hx
        simp only [beq_iff_eq]
        intro hxid
        exact hnot ⟨x, hx, by rw [hxid, hw]⟩
      simp [List.countP_cons, hw, hzero]
    · simpa [List.countP_cons, hw] using ih hnd

/-- C4: a WorkspacesChanged snapshot replaces the workspace list with
the incoming list sorted by idx, reporting changed = true iff the
sorted list differs elementwise (id, idx, is_focused) from the previous
one; applying the same snapshot twice therefore reports a change at
most on the first application, and the second application is a no-op. -/
theorem workspaces_snapshot_diffing (s : NiriState) (line : String) (v inner : JsonVal)
    (arr : List JsonVal)
    (hline : line ≠ "")
    (hwa : v.get kWorkspaceActivated = none)
    (hwc : v.get kWorkspacesChanged = some inner)
    (harr : (inner.index kWorkspaces).as_array = some arr) :
    (apply_event_line s line (some v)).1.workspaces =
      sort_by_idx (arr.filterMap parse_workspace) ∧
    ((apply_event_line s line (some v)).2 = true ↔
      workspaces_eq s.workspaces (sort_by_idx (arr.filterMap parse_workspace)) = false) ∧
    (apply_event_line (apply_event_line s line (some v)).1 line (some v)).2 = false ∧
    (apply_event_line (apply_event_line s line (some v)).1 line (some v)).1 =
      (apply_event_line s line (some v)).1 := by
  have hrefl := workspaces_eq_refl (sort_by_idx (arr.filterMap parse_workspace))
  by_cases heq :
      workspaces_eq s.workspaces (sort_by_idx (arr.filterMap parse_workspace)) = true
  · have hs := workspaces_eq_eq heq
    simp [apply_event_line, hline, apply_event_parsed, hwa, hwc,
      applyWorkspacesChanged, harr, heq, hrefl, hs]
  · simp only [Bool.not_eq_true] at heq
    simp [apply_event_line, hline, apply_event_parsed, hwa, hwc,
      applyWorkspacesChanged, harr, heq, hrefl]

/-- Witness for C4: on the spec's two-workspace snapshot applied to the
empty initial state, the first application reports changed = true and
the second changed = false. -/
theorem workspaces_snapshot_witness :
    (apply_event_line {} "e" (some wsSnapshotVal)).2 = true ∧
    (apply_event_line (apply_event_line {} "e" (some wsSnapshotVal)).1 "e"
      (some wsSnapshotVal)).2 = false := by
  have T := workspaces_snapshot_diffing {} "e" wsSnapshotVal
    (.obj [(kWorkspaces, .arr [wsObj1, wsObj2])]) [wsObj1, wsObj2]
    (by decide)
    (by simp [wsSnapshotVal, JsonVal.get, lookupField, kWorkspaceActivated,
      kWorkspacesChanged])
    (by simp [wsSnapshotVal, JsonVal.get, lookupField, kWorkspacesChanged])
    (by simp [JsonVal.index, JsonVal.get, JsonVal.as_array, lookupField, kWorkspaces])
  refine ⟨T.2.1.mpr ?_, T.2.2.1⟩
  simp [workspaces_eq, sort_by_idx, parse_workspace, wsObj1, wsObj2, JsonVal.index,
    JsonVal.get, JsonVal.as_u64, JsonVal.as_bool, lookupField, kId, kIdx, kIsFocused]

/-- C10: a WorkspaceActivated event with focused = true sets is_focused
exactly on the workspaces whose id matches the event id and clears all
others (so at most one workspace is focused when ids are pairwise
distinct); with focused = false every flag is cleared; changed = true is
reported iff some flag flipped. -/
theorem workspace_activated_focus (s : NiriState) (line : String) (v inner : JsonVal)
    (id : Nat) (focused : Bool)
    (hline : line ≠ "")
    (hwa : v.get kWorkspaceActivated = some inner)
    (hid : (inner.index kId).as_u64 = some id)
    (hf : (inner.index kFocused).as_bool = some focused) :
    (apply_event_line s line (some v)).1.workspaces =
      s.workspaces.map (fun w => { w with is_focused := focused && w.id == id }) ∧
    ((s.workspaces.map Workspace.id).Nodup →
      (apply_event_line s line (some v)).1.workspaces.countP
        (fun w => w.is_focused) ≤ 1) ∧
    (focused = false →
      ∀ w ∈ (apply_event_line s line (some v)).1.workspaces, w.is_focused = false) ∧
    ((apply_event_line s line (some v)).2 = true ↔
      ∃ w ∈ s.workspaces, (focused && w.id == id) ≠ w.is_focused) := by
  have hmain :
      apply_event_line s line (some v) =
        ({ s with workspaces :=
            s.workspaces.map (fun w => { w with is_focused := focused && w.id == id }) },
          (s.workspaces.zip
            (s.workspaces.map (fun w => { w with is_focused := focused && w.id == id }))).any
            fun p => p.2.is_focused != p.1.is_focused) := by
    simp [apply_event_line, hline, apply_event_parsed, hwa,
      applyWorkspaceActivated, hid, hf]
  refine ⟨by rw [hmain], ?_, ?_, ?_⟩
  · intro hnd
    rw [hmain]
    simp only [List.countP_map, Function.comp]
    refine le_trans (List.countP_mono_left ?_) (countP_id_le_one id s.workspaces hnd)
    intro x _ hx
    simp only at hx
    exact ((Bool.and_eq_true _ _).mp hx).2
  · intro hfoc
    rw [hmain]
    intro w hw
    simp only [List.mem_map] at hw
    obtain ⟨x, _, rfl⟩ := hw
    simp [hfoc]
  · rw [hmain]
    have hz := zip_map_any s.workspaces
      (fun w => { w with is_focused := focused && w.id == id })
      (fun p => p.2.is_focused != p.1.is_focused)
    simp only at hz
    constructor
    · intro h
      rw [hz] at h
      simp only [List.any_eq_true, bne_iff_ne] at h
      obtain ⟨x, hx, hne⟩ := h
      exact ⟨x, hx, by simpa using hne⟩
    · intro ⟨x, hx, hne⟩
      rw [hz]
      simp only [List.any_eq_true, bne_iff_ne]
      exact ⟨x, hx, by simpa using hne⟩

/-- Witness for C10: focusing workspace id 1 in a two-workspace state
(ids 1 and 2, the second focused) moves the flag to workspace 1 and
leaves at most one workspace focused. -/
theorem workspace_activated_witness :
    (apply_event_line twoWsState "e" (some wsActVal)).1.workspaces =
      twoWsState.workspaces.map (fun w => { w with is_focused := true && w.id == 1 }) ∧
    (apply_event_line twoWsState "e" (some wsActVal)).1.workspaces.countP
      (fun w => w.is_focused) ≤ 1 := by
  have T := workspace_activated_focus twoWsState "e" wsActVal
    (.obj [(kId, .num 1), (kFocused, .bool true)]) 1 true
    (by decide)
    (by simp [wsActVal, JsonVal.get, lookupField, kWorkspaceActivated])
    (by simp [JsonVal.index, JsonVal.get, JsonVal.as_u64, lookupField, kId])
    (by simp [JsonVal.index, JsonVal.get, JsonVal.as_bool, lookupField, kFocused, kId])
  exact ⟨T.1, T.2.1 (by decide)⟩

/-! Helper lemmas on prefixSums and the layer-construction folds. -/

theorem prefixSums_length (l : List Nat) : ∀ acc, (prefixSums acc l).length = l.length := by
  induction l with
  | nil => intro acc; rfl
  | cons s rest ih => intro acc; simp [prefixSums, ih]

theorem prefixSums_append (l1 l2 : List Nat) :
    ∀ acc, prefixSums acc (l1 ++ l2) = prefixSums acc l1 ++ prefixSums (acc + l1.sum) l2 := by
  induction l1 with
  | nil => intro acc; simp [prefixSums]
  | cons s rest ih =>
    intro acc
    simp [prefixSums, ih (acc + s), Nat.add_assoc]

theorem prefixSums_chain (l : List Nat) (hpos : ∀ s ∈ l, 1 ≤ s) :
    ∀ acc, List.Chain' (· < ·) (prefixSums acc l) := by
  induction l with
  | nil => intro acc; simp [prefixSums]
  | cons s rest ih =>
    intro acc
    have hs : 1 ≤ s := hpos s (by simp)
    have hrest : ∀ x ∈ rest, 1 ≤ x := fun x hx => hpos x (by simp [hx])
    cases rest with
    | nil => simp [prefixSums]
    | cons s2 r2 =>
      simp only [prefixSums]
      refine List.Chain'.cons ?_ ?_
      · omega
      · simpa [prefixSums] using ih hrest (acc + s)

theorem prefixSums_getD (l : List Nat) :
    ∀ acc i, i < l.length → (prefixSums acc l).getD i 0 = acc + (l.take i).sum := by
  induction l with
  | nil => intro acc i h; simp at h
  | cons s rest ih =>
    intro acc i h
    cases i with
    | zero => simp [prefixSums]
    | succ j =>
      simp only [prefixSums, List.getD_cons_succ, List.take_succ_cons, List.sum_cons]
      rw [ih (acc + s) j (by simpa using h)]
      omega

theorem take_sum_add_le (l : List Nat) (i : Nat) (h : i < l.length) :
    (l.take i).sum + l.getD i 0 ≤ l.sum := by
  induction l generalizing i with
  | nil => simp at h
  | cons s rest ih =>
    cases i with
    | zero => simp
    | succ j =>
      simp only [List.take_succ_cons, List.sum_cons, List.getD_cons_succ]
      have := ih j (by simpa using h)
      omega

theorem scanButtons_spec (env : Env) (cfg : List ButtonConfig) :
    ∀ acc,
      (scanButtons env acc cfg).1.map Prod.fst =
        prefixSums acc (cfg.map fun c => clampStretch c.stretch) ∧
      (scanButtons env acc cfg).2 = acc + (cfg.map fun c => clampStretch c.stretch).sum := by
  induction cfg with
  | nil => intro acc; simp [scanButtons, prefixSums]
  | cons c rest ih =>
    intro acc
    obtain ⟨h1, h2⟩ := ih (acc + clampStretch c.stretch)
    simp only [scanButtons, List.map_cons, List.map_map, prefixSums, List.sum_cons]
    constructor
    · simpa using h1
    · rw [h2]; omega

theorem clampStretch_pos (s? : Option Nat) : 1 ≤ clampStretch s? := by
  simp only [clampStretch]
  split <;> omega

theorem rebuildWorkspaceButtons_spec (ws : List Workspace) :
    ∀ acc : RebuildAcc,
      (rebuildWorkspaceButtons acc ws).buttons.map Prod.fst =
        acc.buttons.map Prod.fst ++ prefixSums acc.virt (List.replicate ws.length 1) ∧
      (rebuildWorkspaceButtons acc ws).virt = acc.virt + ws.length ∧
      (rebuildWorkspaceButtons acc ws).total = acc.total + ws.length := by
  induction ws with
  | nil => intro acc; simp [rebuildWorkspaceButtons, prefixSums]
  | cons w rest ih =>
    intro acc
    have hstep :
        rebuildWorkspaceButtons acc (w :: rest) =
          rebuildWorkspaceButtons
            { acc with
              ids := acc.ids ++ [(acc.buttons.length, w.idx)],
              buttons := acc.buttons ++ [(acc.virt, Button.new_niri_workspace w.idx w.is_focused)],
              virt := acc.virt + 1,
              total := acc.total + 1 } rest := rfl
    obtain ⟨h1, h2, h3⟩ := ih
      { acc with
        ids := acc.ids ++ [(acc.buttons.length, w.idx)],
        buttons := acc.buttons ++ [(acc.virt, Button.new_niri_workspace w.idx w.is_focused)],
        virt := acc.virt + 1,
        total := acc.total + 1 }
    rw [hstep]
    refine ⟨?_, ?_, ?_⟩
    · rw [h1]
      simp [prefixSums, List.map_append, List.replicate_succ]
    · rw [h2]
      simp only [List.length_cons]
      omega
    · rw [h3]
      simp only [List.length_cons]
      omega

theorem rebuild_fold_spec (env : Env) (niri : NiriState) (cfg : List ButtonConfig) :
    ∀ acc : RebuildAcc,
      ((cfg.foldl (rebuildStep env niri) acc).buttons.map Prod.fst =
        acc.buttons.map Prod.fst ++ prefixSums acc.virt (rebuildStretches niri cfg)) ∧
      (cfg.foldl (rebuildStep env niri) acc).virt =
        acc.virt + (rebuildStretches niri cfg).sum ∧
      (cfg.foldl (rebuildStep env niri) acc).total =
        acc.total + (rebuildStretches niri cfg).sum := by
  induction cfg with
  | nil => intro acc; simp [rebuildStretches, prefixSums]
  | cons c rest ih =>
    intro acc
    have hstretches :
        rebuildStretches niri (c :: rest) =
          (if c.niri_workspaces == some true then
            List.replicate niri.workspaces.length 1
          else [c.stretch.getD 1]) ++ rebuildStretches niri rest := by
      simp [rebuildStretches]
    have hfold :
        (c :: rest).foldl (rebuildStep env niri) acc =
          rest.foldl (rebuildStep env niri) (rebuildStep env niri acc c) := rfl
    -- characterize the single step
    have hstep :
        (rebuildStep env niri acc c).buttons.map Prod.fst =
          acc.buttons.map Prod.fst ++
            prefixSums acc.virt
              (if c.niri_workspaces == some true then
                List.replicate niri.workspaces.length 1
              else [c.stretch.getD 1]) ∧
        (rebuildStep env niri acc c).virt =
          acc.virt + (if c.niri_workspaces == some true then
            List.replicate niri.workspaces.length 1
          else [c.stretch.getD 1]).sum ∧
        (rebuildStep env niri acc c).total =
          acc.total + (if c.niri_workspaces == some true then
            List.replicate niri.workspaces.length 1
          else [c.stretch.getD 1]).sum := by
      by_cases hws : c.niri_workspaces = some true
      · obtain ⟨h1, h2, h3⟩ := rebuildWorkspaceButtons_spec niri.workspaces acc
        simp [rebuildStep, hws, h1, h2, h3, List.sum_replicate]
      · have hws2 : (c.niri_workspaces == some true) = false := by
          simp [hws]
        by_cases ht : c.niri_window_title = some true
        · simp [rebuildStep, hws2, ht, prefixSums, List.map_append]
        · have ht2 : (c.niri_window_title == some true) = false := by
            simp [ht]
          simp only [rebuildStep, hws2, ht2, Bool.false_eq_true, if_false]
          constructor
          · cases hti : (Button.with_config env c).image.isTime <;>
              cases htl : (Button.with_config env c).image.isLive <;>
                simp [hti, htl, prefixSums, List.map_append]
          · cases hti : (Button.with_config env c).image.isTime <;>
              cases htl : (Button.with_config env c).image.isLive <;>
                simp [hti, htl, prefixSums]

    obtain ⟨hs1, hs2, hs3⟩ := hstep
    obtain ⟨h1, h2, h3⟩ := ih (rebuildStep env niri acc c)
    rw [hfold, hstretches]
    refine ⟨?_, ?_, ?_⟩
    · rw [h1, hs1, hs2, prefixSums_append, List.append_assoc]
    · rw [h2, hs2, List.sum_append]
      omega
    · rw [h3, hs3, List.sum_append]
      omega

theorem rebuildStretches_pos (niri : NiriState) (cfg : List ButtonConfig)
    (h : ∀ c ∈ cfg, 1 ≤ c.stretch.getD 1) :
    ∀ s ∈ rebuildStretches niri cfg, 1 ≤ s := by
  intro s hs
  simp only [rebuildStretches, List.mem_flatMap] at hs
  obtain ⟨c, hc, hmem⟩ := hs
  by_cases hws : c.niri_workspaces = some true
  · simp [hws] at hmem
    omega
  · have : (c.niri_workspaces == some true) = false := by simp [hws]
    simp [this] at hmem
    subst hmem
    exact h c hc

/-- C3 counterexample: `rebuild_info_layer` does not clamp a declared
stretch of 0 (unlike `with_config`), so on a source config whose first
entry declares stretch 0 the rebuilt info layer has offsets [0, 0] —
not strictly increasing — and a virtual_button_count of 1, while the
sum of clamped stretch values is 2. -/
theorem rebuild_zero_stretch_counterexample :
    ((rebuild_info_layer {} {} zeroStretchLayer).buttons.map Prod.fst = [0, 0]) ∧
    ¬ List.Chain' (· < ·) ((rebuild_info_layer {} {} zeroStretchLayer).buttons.map Prod.fst) ∧
    (rebuild_info_layer {} {} zeroStretchLayer).virtual_button_count = 1 ∧
    (zeroStretchCfg.map fun c => clampStretch c.stretch).sum = 2 := by
  refine ⟨rfl, ?_, rfl, rfl⟩
  intro h
  rw [show (rebuild_info_layer {} {} zeroStretchLayer).buttons.map Prod.fst = [0, 0] from rfl]
    at h
  simp [List.chain'_cons] at h

/-- C3 (amended): for every layer built by `with_config` the per-entry
stretches (defaulted to 1 and clamped to a minimum of 1) sum to
`virtual_button_count`, each button's `virtual_start_offset` is the
running offset before its entry, the offsets are strictly increasing,
and every button's span ends at or before `virtual_button_count`. For
the info layer rebuilt by `rebuild_info_layer` the same invariants hold
for the effective per-entry widths (one unit per current workspace for
a NiriWorkspaces entry, the declared stretch defaulted to 1 otherwise)
provided every declared stretch is at least 1 — the rebuild path does
not clamp. -/
theorem layer_layout_invariants (env : Env) (cfg : List ButtonConfig) (L : FunctionLayer)
    (hL : FunctionLayer.with_config env cfg = some L)
    (niri : NiriState) (layer : FunctionLayer)
    (hstretch : ∀ c ∈ layer.source_config, 1 ≤ c.stretch.getD 1) :
    (L.virtual_button_count = (cfg.map fun c => clampStretch c.stretch).sum ∧
     L.buttons.map Prod.fst = prefixSums 0 (cfg.map fun c => clampStretch c.stretch) ∧
     List.Chain' (· < ·) (L.buttons.map Prod.fst) ∧
     (∀ i, i < cfg.length →
       (L.buttons.map Prod.fst).getD i 0 +
           (cfg.map fun c => clampStretch c.stretch).getD i 0 ≤
         L.virtual_button_count)) ∧
    ((rebuild_info_layer env niri layer).virtual_button_count =
       (rebuildStretches niri layer.source_config).sum ∧
     (rebuild_info_layer env niri layer).buttons.map Prod.fst =
       prefixSums 0 (rebuildStretches niri layer.source_config) ∧
     List.Chain' (· < ·) ((rebuild_info_layer env niri layer).buttons.map Prod.fst) ∧
     (∀ i, i < (rebuildStretches niri layer.source_config).length →
       ((rebuild_info_layer env niri layer).buttons.map Prod.fst).getD i 0 +
           (rebuildStretches niri layer.source_config).getD i 0 ≤
         (rebuild_info_layer env niri layer).virtual_button_count)) := by
  constructor
  · -- with_config
    have hne : cfg.isEmpty = false := by
      cases hcc : cfg.isEmpty
      · rfl
      · rw [FunctionLayer.with_config, hcc] at hL
        simp at hL
    rw [FunctionLayer.with_config, hne] at hL
    simp only [Bool.false_eq_true, if_false, Option.some.injEq] at hL
    obtain ⟨h1, h2⟩ := scanButtons_spec env cfg 0
    have hbuttons : L.buttons = (scanButtons env 0 cfg).1 := by rw [← hL]
    have hcount : L.virtual_button_count = (scanButtons env 0 cfg).2 := by rw [← hL]
    have hpos : ∀ s ∈ cfg.map fun c => clampStretch c.stretch, 1 ≤ s := by
      intro s hs
      simp only [List.mem_map] at hs
      obtain ⟨c, _, rfl⟩ := hs
      exact clampStretch_pos c.stretch
    have hoffsets : L.buttons.map Prod.fst =
        prefixSums 0 (cfg.map fun c => clampStretch c.stretch) := by
      rw [hbuttons, h1]
    have hsum : L.virtual_button_count = (cfg.map fun c => clampStretch c.stretch).sum := by
      rw [hcount, h2]
      omega
    refine ⟨hsum, hoffsets, ?_, ?_⟩
    · rw [hoffsets]
      exact prefixSums_chain _ hpos 0
    · intro i hi
      have hil : i < (cfg.map fun c => clampStretch c.stretch).length := by
        simpa using hi
      rw [hoffsets, prefixSums_getD _ 0 i hil, hsum]
      have := take_sum_add_le (cfg.map fun c => clampStretch c.stretch) i hil
      omega
  · -- rebuild_info_layer
    obtain ⟨h1, h2, h3⟩ := rebuild_fold_spec env niri layer.source_config {}
    have hbuttons : (rebuild_info_layer env niri layer).buttons.map Prod.fst =
        prefixSums 0 (rebuildStretches niri layer.source_config) := by
      rw [rebuild_info_layer]
      simpa using h1
    have hcount : (rebuild_info_layer env niri layer).virtual_button_count =
        (rebuildStretches niri layer.source_config).sum := by
      rw [rebuild_info_layer]
      simp only
      rw [h2, h3]
      simp
    have hpos := rebuildStretches_pos niri layer.source_config hstretch
    refine ⟨hcount, hbuttons, ?_, ?_⟩
    · rw [hbuttons]
      exact prefixSums_chain _ hpos 0
    · intro i hi
      rw [hbuttons, prefixSums_getD _ 0 i hi, hcount]
      have := take_sum_add_le (rebuildStretches niri layer.source_config) i hi
      omega

/-- Witness for C3: `with_config` on (stretch 0, default, stretch 2)
lays out offsets 0, 1, 2 with count 4; the rebuilt info layer over two
workspaces plus a stretch-6 title and a stretch-4 clock lays out
offsets 0, 1, 2, 8 with count 12. -/
theorem layer_layout_witness :
    threeBtnLayer.virtual_button_count =
      (threeBtnCfg.map fun c => clampStretch c.stretch).sum ∧
    threeBtnLayer.buttons.map Prod.fst =
      prefixSums 0 (threeBtnCfg.map fun c => clampStretch c.stretch) ∧
    List.Chain' (· < ·) (threeBtnLayer.buttons.map Prod.fst) ∧
    (rebuild_info_layer {} twoWsState infoLayer).buttons.map Prod.fst =
      prefixSums 0 (rebuildStretches twoWsState infoLayer.source_config) := by
  have T := layer_layout_invariants {} threeBtnCfg threeBtnLayer rfl
    twoWsState infoLayer (by decide)
  exact ⟨T.1.1, T.1.2.1, T.1.2.2.1, T.2.2.1⟩

/-! Helper lemmas for the hit test resolution. -/

theorem findIdx_gt_split (v : Nat) (b : Nat × Button) (post : List (Nat × Button))
    (hb : b.1 ≤ v) (hpost : ∀ q ∈ post.head?, v < q.1) :
    ∀ (pre : List (Nat × Button)) (i : Nat), (∀ p ∈ pre, p.1 ≤ v) →
      List.findIdx? (fun p => decide (v < p.1)) (pre ++ b :: post) i =
        (match post with
         | [] => none
         | _ :: _ => some (i + pre.length + 1)) := by
  intro pre
  induction pre with
  | nil =>
    intro i _
    simp only [List.nil_append, List.findIdx?_cons]
    rw [if_neg (by simpa using Nat.not_lt.mpr hb)]
    cases post with
    | nil => simp
    | cons q rest =>
      have hq : v < q.1 := hpost q rfl
      simp [List.findIdx?_cons, hq]
  | cons p pre ih =>
    intro i hpre
    have hp : p.1 ≤ v := hpre p (by simp)
    simp only [List.cons_append, List.findIdx?_cons]
    rw [if_neg (by simpa using Nat.not_lt.mpr hp)]
    rw [ih (i + 1) (fun q hq => hpre q (by simp [hq]))]
    cases post <;> simp <;> omega

theorem lastStartLE_split (v : Nat) (pre post : List (Nat × Button)) (b : Nat × Button)
    (hpre : ∀ p ∈ pre, p.1 ≤ v) (hb : b.1 ≤ v)
    (hpost : ∀ q ∈ post.head?, v < q.1) :
    lastStartLE (pre ++ b :: post) v = pre.length := by
  rw [lastStartLE, findIdx_gt_split v b post hb hpost pre 0 hpre]
  cases post <;> simp

/-- C2 counterexample: on a two-button layer (starts 0 and 1, count 34)
with panel width 1024 and height 60, the point x = 30.05, y = 30 lies
strictly inside the second button's rendered span [30, 1022.58] and
inside the 10-90% vertical band, the button is clickable, yet `hit`
returns no hit: the column resolution divides by `width / count` while
the span uses `vbw + spacing`, so the point resolves to button 0 and
fails that button's span check. -/
theorem hit_inside_span_counterexample :
    hitLeftEdge hitCxLayer 1024 1 < 601 / 20 ∧
    (601 / 20 : ℚ) < hitLeftEdge hitCxLayer 1024 1 +
      hitButtonWidth hitCxLayer 1024 1 (buttonEnd hitCxLayer 1) ∧
    (1 / 10 : ℚ) * 60 < 30 ∧ (30 : ℚ) < (9 / 10) * 60 ∧
    (hitCxLayer.buttons.get? 1).map (fun p => p.2.clickable) = some true ∧
    hitCxLayer.hit 1024 60 (601 / 20) 30 none = none := by
  have hleft1 : hitLeftEdge hitCxLayer 1024 1 = 30 := by
    rw [hitLeftEdge, hitVbw]
    norm_num [hitCxLayer]
  have hbw1 : hitButtonWidth hitCxLayer 1024 1 (buttonEnd hitCxLayer 1) = 248 / 17 + 978 := by
    rw [hitButtonWidth, hitVbw, buttonEnd]
    norm_num [hitCxLayer]
  have hv : virtualColumn hitCxLayer 1024 (601 / 20) = 0 := by
    rw [virtualColumn]
    norm_num [hitCxLayer]
  have hres : hitResolve hitCxLayer 1024 (601 / 20) none = 0 := by
    simp only [hitResolve]
    rw [hv]
    decide
  have hspan0 : (601 / 20 : ℚ) > hitLeftEdge hitCxLayer 1024 0 +
      hitButtonWidth hitCxLayer 1024 0 (buttonEnd hitCxLayer 0) := by
    rw [hitLeftEdge, hitButtonWidth, hitVbw, buttonEnd]
    norm_num [hitCxLayer]
  refine ⟨by rw [hleft1]; norm_num, by rw [hleft1, hbw1]; norm_num,
    by norm_num, by norm_num, by decide, ?_⟩
  have hget : hitCxLayer.buttons.get? 0 = some (0, Button.new_text "a" []) := rfl
  simp only [FunctionLayer.hit, hres, hget]
  rw [if_neg (show ¬¬((Button.new_text "a" []).clickable = true) by
    simp [Button.new_text])]
  rw [if_pos (Or.inr (Or.inl hspan0))]

/-- C2 (amended): the positive guarantee needs the struck virtual
column `(x / (width / count)) as usize` to fall within the resolved
button's [start, end) range — the column grid differs from the rendered
span grid, so a point strictly inside a button's span can resolve to
the previous button and yield no hit. With that condition, a clickable
button containing x in its span and y in the 10-90% band is returned;
the no-hit cases are as claimed: the resolved button not clickable, y
outside the 10-90% band, or x outside the resolved button's span. -/
theorem hit_geometry (l : FunctionLayer) (width height : Nat) (x y : ℚ) :
    (∀ pre b post,
      l.buttons = pre ++ b :: post →
      (∀ p ∈ pre, p.1 ≤ virtualColumn l width x) →
      b.1 ≤ virtualColumn l width x →
      (∀ q ∈ post.head?, virtualColumn l width x < q.1) →
      b.2.clickable = true →
      hitLeftEdge l width b.1 ≤ x →
      x ≤ hitLeftEdge l width b.1 + hitButtonWidth l width b.1 (buttonEnd l pre.length) →
      (1 / 10) * (height : ℚ) ≤ y →
      y ≤ (9 / 10) * (height : ℚ) →
      l.hit width height x y none = some pre.length) ∧
    (∀ i? p, l.buttons.get? (hitResolve l width x i?) = some p →
      p.2.clickable = false → l.hit width height x y i? = none) ∧
    (y < (1 / 10) * (height : ℚ) ∨ y > (9 / 10) * (height : ℚ) →
      ∀ i?, l.hit width height x y i? = none) ∧
    (∀ i? p, l.buttons.get? (hitResolve l width x i?) = some p →
      p.2.clickable = true →
      (x < hitLeftEdge l width p.1 ∨
        x > hitLeftEdge l width p.1 +
          hitButtonWidth l width p.1 (buttonEnd l (hitResolve l width x i?))) →
      l.hit width height x y i? = none) := by
  refine ⟨?_, ?_, ?_, ?_⟩
  · intro pre b post hsplit hpre hb hpost hclick hx1 hx2 hy1 hy2
    have hres : hitResolve l width x none = pre.length := by
      simp only [hitResolve]
      rw [hsplit]
      exact lastStartLE_split _ pre post b hpre hb hpost
    have hget : l.buttons.get? (hitResolve l width x none) = some b := by
      rw [hres, hsplit, List.get?_append_right (Nat.le_refl _)]
      simp
    simp only [FunctionLayer.hit, hget]
    rw [if_neg (show ¬¬(b.2.clickable = true) by simp [hclick])]
    rw [hres]
    rw [if_neg]
    rintro (h | h | h | h)
    · exact absurd hx1 (not_le.mpr h)
    · exact absurd hx2 (not_le.mpr h)
    · exact absurd hy1 (not_le.mpr h)
    · exact absurd hy2 (not_le.mpr h)
  · intro i? p hget hclick
    simp only [FunctionLayer.hit, hget]
    rw [if_pos (show ¬(p.2.clickable = true) by simp [hclick])]
  · intro hy i?
    cases hget : l.buttons.get? (hitResolve l width x i?) with
    | none => simp only [FunctionLayer.hit, hget]
    | some p =>
      simp only [FunctionLayer.hit, hget]
      by_cases hclick : p.2.clickable = true
      · rw [if_neg (show ¬¬(p.2.clickable = true) by simp [hclick])]
        rcases hy with hy | hy
        · rw [if_pos (Or.inr (Or.inr (Or.inl hy)))]
        · rw [if_pos (Or.inr (Or.inr (Or.inr hy)))]
      · rw [if_pos hclick]
  · intro i? p hget hclick hx
    simp only [FunctionLayer.hit, hget]
    rw [if_neg (show ¬¬(p.2.clickable = true) by simp [hclick])]
    rcases hx with hx | hx
    · rw [if_pos (Or.inl hx)]
    · rw [if_pos (Or.inr (Or.inl hx))]

/-- Witness for C2 (amended): on the same two-button layer, x = 60
(virtual column 1, inside button 1's span) with y = 30 hits button 1. -/
theorem hit_geometry_witness :
    hitCxLayer.hit 1024 60 60 30 none = some 1 := by
  have T := (hit_geometry hitCxLayer 1024 60 60 30).1
    [(0, Button.new_text "a" [])] (1, Button.new_text "b" []) []
    rfl
    (by
      intro p hp
      simp only [List.mem_singleton] at hp
      subst hp
      exact Nat.zero_le _)
    (by
      show 1 ≤ virtualColumn hitCxLayer 1024 60
      rw [virtualColumn]
      norm_num [hitCxLayer])
    (by intro q hq; simp at hq)
    (by decide)
    (by
      rw [hitLeftEdge, hitVbw]
      norm_num [hitCxLayer])
    (by
      rw [hitLeftEdge, hitButtonWidth, hitVbw, buttonEnd]
      norm_num [hitCxLayer])
    (by norm_num)
    (by norm_num)
  simpa using T

/-! Helper lemma: the binary search maintains "lo fits, hi does not". -/

theorem truncBSearch_bracket (w : Nat → ℚ) (ew maxw : ℚ) :
    ∀ n lo hi, hi - lo ≤ n → lo < hi →
      w lo + ew ≤ maxw → maxw < w hi + ew →
      lo ≤ truncBSearch w ew maxw lo hi ∧
      truncBSearch w ew maxw lo hi < hi ∧
      w (truncBSearch w ew maxw lo hi) + ew ≤ maxw ∧
      maxw < w (truncBSearch w ew maxw lo hi + 1) + ew := by
  intro n
  induction n with
  | zero =>
    intro lo hi hn hlt _ _
    omega
  | succ m ih =>
    intro lo hi hn hlt hfit hnofit
    rw [truncBSearch]
    by_cases hcase : lo + 1 < hi
    · simp only [hcase, if_true]
      have hmid1 : lo < (lo + hi) / 2 := by omega
      have hmid2 : (lo + hi) / 2 < hi := by omega
      by_cases hmidfit : w ((lo + hi) / 2) + ew ≤ maxw
      · simp only [hmidfit, if_true]
        have := ih ((lo + hi) / 2) hi (by omega) hmid2 hmidfit hnofit
        exact ⟨by omega, this.2.1, this.2.2.1, this.2.2.2⟩
      · simp only [hmidfit, if_false]
        have := ih lo ((lo + hi) / 2) (by omega) hmid1 hfit (by
          exact lt_of_not_ge hmidfit)
        exact ⟨this.1, by omega, this.2.2.1, this.2.2.2⟩
    · simp only [hcase, if_false]
      have hhi : hi = lo + 1 := by omega
      exact ⟨Nat.le_refl lo, by omega, hfit, by rw [← hhi]; exact hnofit⟩

/-- C5: when the full title fits in the available width, the rendered
text is the title verbatim with no ellipsis; when it overflows, the
rendered text is a prefix plus the ellipsis, and the prefix length is
the maximum character count whose measured width plus the ellipsis
width still fits. Hypotheses: prefix widths are monotone in length, the
ellipsis width is non-negative, and the empty prefix plus the ellipsis
fits (so that a maximal fitting prefix exists). -/
theorem window_title_truncation (w : Nat → ℚ) (ew maxw : ℚ) (title : String)
    (hmono : ∀ a b : Nat, a ≤ b → w a ≤ w b) (hew : 0 ≤ ew)
    (hfit0 : w 0 + ew ≤ maxw) :
    (w title.length ≤ maxw → renderWindowTitle w ew title maxw = title) ∧
    (maxw < w title.length →
      ∃ k, renderWindowTitle w ew title maxw = (title.take k) ++ "…" ∧
        w k + ew ≤ maxw ∧
        ∀ j, j ≤ title.length → w j + ew ≤ maxw → j ≤ k) := by
  constructor
  · intro hfits
    simp [renderWindowTitle, hfits]
  · intro hover
    have hlen : 0 < title.length := by
      rcases Nat.eq_zero_or_pos title.length with h0 | h0
      · rw [h0] at hover
        exact absurd hfit0 (by nlinarith)
      · exact h0
    have hnofit : maxw < w title.length + ew := by nlinarith
    obtain ⟨h1, h2, h3, h4⟩ := truncBSearch_bracket w ew maxw title.length 0 title.length
      (by omega) hlen hfit0 hnofit
    refine ⟨truncBSearch w ew maxw 0 title.length, ?_, h3, ?_⟩
    · simp [renderWindowTitle, not_le.mpr hover]
    · intro j hj hjfit
      by_contra hgt
      push_neg at hgt
      have : w (truncBSearch w ew maxw 0 title.length + 1) ≤ w j := hmono _ _ (by omega)
      nlinarith

/-- Witness for C5: with unit character widths, ellipsis width 1 and
available width 5, the eight-character title is truncated to its first
four characters plus the ellipsis. -/
theorem window_title_truncation_witness :
    renderWindowTitle (fun k => (k : ℚ)) 1 "abcdefgh" 5 = "abcd…" := by
  obtain ⟨k, heq, hfit, hmax⟩ :=
    (window_title_truncation (fun k => (k : ℚ)) 1 5 "abcdefgh"
      (fun a b h => by simpa using (Nat.cast_le (α := ℚ)).mpr h) (by norm_num)
      (by norm_num)).2
      (by norm_num [show ("abcdefgh" : String).length = 8 from rfl])
  have hk4 : k = 4 := by
    have hup : (k : ℚ) + 1 ≤ 5 := hfit
    have hlo : 4 ≤ k := hmax 4 (by norm_num [show ("abcdefgh" : String).length = 8 from rfl])
      (by norm_num)
    have : k ≤ 4 := by exact_mod_cast (by linarith : (k : ℚ) ≤ 4)
    omega
  rw [hk4] at heq
  rw [heq]
  rfl

/-! Helper lemmas on the draw loop. -/

theorem drawLoop_buttons (complete : Bool) (vbw : ℚ) (psw : Nat) (shiftX : ℚ)
    (height count : Nat) :
    ∀ btns : List (Nat × Button),
      (drawLoop complete vbw psw shiftX height count btns).map (fun r => r.1) =
        btns.map (fun p =>
          if p.2.changed || complete then (p.1, { p.2 with changed := false }) else p) := by
  intro btns
  induction btns with
  | nil => rfl
  | cons p rest ih =>
    simp only [drawLoop, List.map_cons, ih]
    congr 1
    by_cases hc : p.2.changed = true <;> by_cases hcm : complete = true <;>
      simp [drawButton, hc, hcm]

theorem drawLoop_marks (complete : Bool) (vbw : ℚ) (psw : Nat) (shiftX : ℚ)
    (height count : Nat) :
    ∀ btns : List (Nat × Button),
      (drawLoop complete vbw psw shiftX height count btns).map (fun r => r.2.1) =
        btns.map (fun p => p.2.changed || complete) := by
  intro btns
  induction btns with
  | nil => rfl
  | cons p rest ih =>
    simp only [drawLoop, List.map_cons, ih]
    congr 1
    by_cases hc : p.2.changed = true <;> by_cases hcm : complete = true <;>
      simp [drawButton, hc, hcm]

theorem drawLoop_rects_complete (vbw : ℚ) (psw : Nat) (shiftX : ℚ)
    (height count : Nat) :
    ∀ btns : List (Nat × Button),
      (drawLoop true vbw psw shiftX height count btns).filterMap (fun r => r.2.2) = [] := by
  intro btns
  induction btns with
  | nil => rfl
  | cons p rest ih =>
    simp only [drawLoop]
    by_cases hc : p.2.changed = true <;>
      simp [drawButton, hc, List.filterMap_cons, ih]

theorem drawButton_skip (vbw : ℚ) (psw : Nat) (shiftX : ℚ) (height e : Nat)
    (p : Nat × Button) (hc : p.2.changed = false) :
    drawButton false vbw psw shiftX height e p = (p, false, none) := by
  simp [drawButton, hc]

theorem drawButton_paint_incr (vbw : ℚ) (psw : Nat) (shiftX : ℚ) (height e : Nat)
    (p : Nat × Button) (hc : p.2.changed = true) :
    drawButton false vbw psw shiftX height e p =
      ((p.1, { p.2 with changed := false }), true,
        some (drawRect vbw psw shiftX height e p)) := by
  simp [drawButton, hc]

theorem drawLoop_rects_incr (vbw : ℚ) (psw : Nat) (shiftX : ℚ) (height count : Nat) :
    ∀ btns : List (Nat × Button),
      ((drawLoop false vbw psw shiftX height count btns).filterMap
          (fun r => r.2.2)).length =
        (btns.filter (fun p => p.2.changed)).length ∧
      ∀ r ∈ (drawLoop false vbw psw shiftX height count btns).filterMap
          (fun r => r.2.2),
        r.x1 = height - f64ToU16 ((height : ℚ) * (17 / 20)) - 8 ∧
        r.x2 = height - f64ToU16 ((height : ℚ) * (3 / 20)) + 8 := by
  intro btns
  induction btns with
  | nil => exact ⟨rfl, by intro r hr; simp [drawLoop] at hr⟩
  | cons p rest ih =>
    obtain ⟨ihlen, ihmem⟩ := ih
    by_cases hc : p.2.changed = true
    · refine ⟨?_, ?_⟩
      · simp only [drawLoop]
        rw [drawButton_paint_incr _ _ _ _ _ _ hc]
        simp [List.filterMap_cons, List.filter_cons, hc, ihlen]
      · intro r hr
        simp only [drawLoop] at hr
        rw [drawButton_paint_incr _ _ _ _ _ _ hc] at hr
        simp only [List.filterMap_cons] at hr
        simp only [List.mem_cons] at hr
        rcases hr with rfl | hr
        · exact ⟨rfl, rfl⟩
        · exact ihmem r hr
    · have hcf : p.2.changed = false := by simpa using hc
      refine ⟨?_, ?_⟩
      · simp only [drawLoop]
        rw [drawButton_skip _ _ _ _ _ _ hcf]
        simp [List.filterMap_cons, List.filter_cons, hcf, ihlen]
      · intro r hr
        simp only [drawLoop] at hr
        rw [drawButton_skip _ _ _ _ _ _ hcf] at hr
        simp only [List.filterMap_cons] at hr
        exact ihmem r hr

/-- C7 counterexample: in incremental mode the dirty rectangle for a
repainted button is not clipped to the 15%-85% vertical band — it is
extended by the 8-pixel corner radius on both sides. At panel height
100 the band is rows 15..85 but the emitted rectangle spans rows
7..93. -/
theorem draw_band_counterexample :
    (drawCxLayer.draw {} 0 200 100 (0, 0) false).2.2 = [ClipRect.mk 7 0 93 200] ∧
    (7 : ℚ) < (3 / 20) * 100 ∧ (17 / 20) * 100 < 93 := by
  refine ⟨?_, by norm_num, by norm_num⟩
  have h1 : f64ToU16 ((100 : ℚ) * (17 / 20)) = 85 := by
    rw [f64ToU16]
    norm_num
    rfl
  have h2 : f64ToU16 ((100 : ℚ) * (3 / 20)) = 15 := by
    rw [f64ToU16]
    norm_num
    rfl
  have hle : drawLeftEdge 200 0 0 0 = 0 := by
    rw [drawLeftEdge]
    norm_num
  have hbw : drawButtonWidth 200 0 1 = 200 := by
    rw [drawButtonWidth]
    norm_num
  simp only [FunctionLayer.draw, drawCxLayer, drawLoop, drawButton, dirtyBtn]
  norm_num [drawRect, hle, hbw, h1, h2, f64ToU16]
  rfl

/-- C7 (amended): a full redraw repaints every button and returns the
single full-frame dirty rectangle; an incremental redraw repaints
exactly the buttons whose changed flag is set, returns one dirty
rectangle per repainted button whose rows span the 15%-85% vertical
band extended by the 8-pixel corner radius (rows
`height - (0.85*height as u16) - 8` through
`height - (0.15*height as u16) + 8`), and leaves buttons whose changed
flag was false untouched; after either mode every button's changed
flag is false. -/
theorem draw_modes (l : FunctionLayer) (cfg : DrawCfg) (psw width height : Nat)
    (shift : ℚ × ℚ) :
    ((l.draw cfg psw width height shift true).2.2 = [ClipRect.mk 0 0 height width] ∧
     (l.draw cfg psw width height shift true).2.1 = l.buttons.map (fun _ => true) ∧
     (l.draw cfg psw width height shift true).1.buttons =
       l.buttons.map (fun p => (p.1, { p.2 with changed := false }))) ∧
    ((l.draw cfg psw width height shift false).2.1 =
       l.buttons.map (fun p => p.2.changed) ∧
     (l.draw cfg psw width height shift false).2.2.length =
       (l.buttons.filter (fun p => p.2.changed)).length ∧
     (∀ r ∈ (l.draw cfg psw width height shift false).2.2,
       r.x1 = height - f64ToU16 ((height : ℚ) * (17 / 20)) - 8 ∧
       r.x2 = height - f64ToU16 ((height : ℚ) * (3 / 20)) + 8) ∧
     (l.draw cfg psw width height shift false).1.buttons =
       l.buttons.map (fun p =>
         if p.2.changed then (p.1, { p.2 with changed := false }) else p)) ∧
    (∀ b : Bool, ∀ q ∈ (l.draw cfg psw width height shift b).1.buttons,
       q.2.changed = false) := by
  refine ⟨⟨?_, ?_, ?_⟩, ⟨?_, ?_, ?_, ?_⟩, ?_⟩
  · simp only [FunctionLayer.draw]
    rw [drawLoop_rects_complete]
    simp
  · simp only [FunctionLayer.draw]
    rw [drawLoop_marks]
    simp
  · simp only [FunctionLayer.draw]
    rw [drawLoop_buttons]
    simp
  · simp only [FunctionLayer.draw]
    rw [drawLoop_marks]
    simp
  · simp only [FunctionLayer.draw]
    rw [show ((if false = true then [ClipRect.mk 0 0 height width] else []) : List ClipRect)
      = [] from rfl]
    rw [List.nil_append]
    exact (drawLoop_rects_incr _ _ _ _ _ l.buttons).1
  · intro r hr
    simp only [FunctionLayer.draw] at hr
    rw [show ((if false = true then [ClipRect.mk 0 0 height width] else []) : List ClipRect)
      = [] from rfl] at hr
    rw [List.nil_append] at hr
    exact (drawLoop_rects_incr _ _ _ _ _ l.buttons).2 r hr
  · simp only [FunctionLayer.draw]
    rw [drawLoop_buttons]
    simp
  · intro b q hq
    simp only [FunctionLayer.draw] at hq
    rw [drawLoop_buttons] at hq
    simp only [List.mem_map] at hq
    obtain ⟨p, _, rfl⟩ := hq
    by_cases hc : p.2.changed = true
    · simp [hc]
    · cases b <;> simp [hc]

/-- Witness for C7: on a two-button layer (first clean, second dirty),
the full redraw reports the full-frame rectangle, and the incremental
redraw marks exactly the dirty button and emits exactly one dirty
rectangle. -/
theorem draw_modes_witness :
    (drawWLayer.draw {} 0 200 100 (0, 0) true).2.2 = [ClipRect.mk 0 0 100 200] ∧
    (drawWLayer.draw {} 0 200 100 (0, 0) false).2.1 =
      drawWLayer.buttons.map (fun p => p.2.changed) ∧
    (drawWLayer.draw {} 0 200 100 (0, 0) false).2.2.length =
      (drawWLayer.buttons.filter (fun p => p.2.changed)).length :=
  ⟨(draw_modes drawWLayer {} 0 200 100 (0, 0)).1.1,
   (draw_modes drawWLayer {} 0 200 100 (0, 0)).2.1.1,
   (draw_modes drawWLayer {} 0 200 100 (0, 0)).2.1.2.1⟩

end Dfr
